import Mathlib

/-!
Verification of the elasticlogrus hook (a logrus hook shipping log entries to
Elasticsearch) against its natural-language specification.

The Go source is shallowly embedded as pure Lean functions with explicit state
passing.  Effects that the Go code performs through pointers, goroutines and
the elastic client are made observable through an event trace (`Trace`):

  * the elastic client is an oracle structure (`Client`) supplying the outcome
    of the index-exists check, of each single-document index request, of
    starting the bulk processor, and of the processor flush/close calls;
  * `time.Time` is an external collaborator modeled by its rendered
    UTC RFC3339Nano string (`GoTime`);
  * the olivere `BulkProcessor` is an external collaborator modeled at its
    interface level: a buffer of pending bulk index requests plus a closed
    flag; `Flush` commits the current buffer, `Close` commits the remainder
    and stops the workers, and both are no-ops once closed;
  * the goroutine spawned by `asyncFlush` is modeled by running its body to
    completion while the caller-visible return value is `none` (nil error);
  * a Go runtime panic (the closures installed by a failed `EnableBulkFlush`
    dereference the nil processor they captured) is recorded as a
    `panicked` trace event; execution aborts there, so no further effects
    follow it in a faithful run;
  * in-place mutation of the logrus entry by the default formatter is modeled
    by returning the updated entry alongside the produced message.

Field and function names follow the Go source (`New`, `Hook.Fire`,
`Hook.SetLevel`, `defaultFormatter`, `syncFlush`, `asyncFlush`,
`Hook.EnableBulkFlush`, ...).
-/

namespace Elasticlogrus

/-- Go errors are modeled by their message string; a nil Go error is `none`
at every use site (`Option GoErr`). -/
abbrev GoErr := String

/-- A dynamically typed Go value held in a logrus field map
(`logrus.Fields = map[string]interface{}`).  `verr m` is a value of Go
error type whose `Error()` method returns `m`; `vnull` is a nil
interface value. -/
inductive GoValue
  | vnull
  | vstr (s : String)
  | verr (msg : String)
  | vint (n : Int)
deriving DecidableEq

/-- External time collaborator: a `time.Time` is modeled by the string that
`t.UTC().Format(time.RFC3339Nano)` renders it to. -/
structure GoTime where
  rfc3339NanoUTC : String
deriving DecidableEq

/-- A `logrus.Entry`: timestamp, numeric severity level, message text and the
field map (`Entry.Data`). -/
structure Entry where
  time : GoTime
  level : Nat
  message : String
  data : List (String × GoValue)
deriving DecidableEq

/-- `logrus.AllLevels`: Panic=0, Fatal=1, Error=2, Warn=3, Info=4, Debug=5,
Trace=6.  Smaller numbers are more severe. -/
def logrusAllLevels : List Nat := [0, 1, 2, 3, 4, 5, 6]

/-- `logrus.ErrorKey`, the reserved field key for error values. -/
def logrusErrorKey : String := "error"

/-- `logrus.Level.String()`. -/
def levelString : Nat → String
  | 0 => "panic"
  | 1 => "fatal"
  | 2 => "error"
  | 3 => "warning"
  | 4 => "info"
  | 5 => "debug"
  | 6 => "trace"
  | _ => "unknown"

/-- Go map read `m[key]` (with the `ok` flag as `Option`). -/
def lookup : List (String × GoValue) → String → Option GoValue
  | [], _ => none
  | (k, v) :: rest, key => if k = key then some v else lookup rest key

/-- Go map write `m[key] = v`. -/
def setKey : List (String × GoValue) → String → GoValue → List (String × GoValue)
  | [], key, v => [(key, v)]
  | (k, w) :: rest, key, v =>
      if k = key then (key, v) :: rest else (k, w) :: setKey rest key v

/-- A value of a produced document (`Message = map[string]interface{}`):
either a string or the embedded field map. -/
inductive MValue
  | mstr (s : String)
  | mdata (d : List (String × GoValue))
deriving DecidableEq

/-- The `Message` type: the serializable document produced by a formatter. -/
abbrev Message := List (String × MValue)

/-- The body of `defaultFormatter`'s first statement: if `entry.Data` holds a
non-nil value of error type under `logrus.ErrorKey`, overwrite it with its
`Error()` string. -/
def normalizeErrorField (data : List (String × GoValue)) : List (String × GoValue) :=
  match lookup data logrusErrorKey with
  | some (GoValue.verr m) => setKey data logrusErrorKey (GoValue.vstr m)
  | _ => data

def timestampKey : String := "@timestamp"

def messageKey : String := "message"

def levelKey : String := "level"

def dataKey : String := "data"

/-- `defaultFormatter`: normalizes the error field in place (the mutated entry
is returned as the first component, modeling the pointer write
`entry.Data[logrus.ErrorKey] = err.Error()`), then builds the four-field
document from the (mutated) entry. -/
def defaultFormatter (entry : Entry) : Entry × Message :=
  let entry2 : Entry := { entry with data := normalizeErrorField entry.data }
  (entry2,
    [(timestampKey, MValue.mstr entry2.time.rfc3339NanoUTC),
     (messageKey, MValue.mstr entry2.message),
     (levelKey, MValue.mstr (levelString entry2.level)),
     (dataKey, MValue.mdata entry2.data)])

/-- One bulk index request (`elastic.NewBulkIndexRequest().Index(i).Type(t).Doc(d)`). -/
structure BulkRequest where
  index : String
  docType : String
  doc : Message
deriving DecidableEq

/-- Observable events of a run, in chronological order. -/
inductive Event
  /-- a single-document index request reached the elastic client -/
  | singleIndexed (index : String) (docType : String) (doc : Message)
  /-- the injected error logger was invoked with a message and a
  (possibly nil) error -/
  | errLogged (msg : String) (err : Option GoErr)
  /-- the shared context was cancelled -/
  | ctxCancelled
  /-- a request was added to the bulk processor buffer -/
  | bulkAdded (req : BulkRequest)
  /-- the bulk processor transmitted a batch of buffered requests -/
  | bulkCommitted (reqs : List BulkRequest)
  /-- `processor.Flush()` was invoked on a live processor -/
  | procFlushed
  /-- `processor.Close()` stopped the workers and flusher -/
  | procClosed
  /-- the Go runtime panicked with the given message; execution aborts, so a
  faithful run never continues past this event -/
  | panicked (msg : String)
deriving DecidableEq

abbrev Trace := List Event

/-- The olivere `BulkProcessor` collaborator at interface level: pending
requests and a closed flag.  `config` records the settings the builder chain
handed to the external engine. -/
structure BulkServiceConfig where
  name : String
  workers : Option Int
  bulkActions : Option Int
  bulkSize : Option Int
  flushInterval : Option Int
  backoffSet : Bool
  retryItemStatusCodes : Option (List Int)
deriving DecidableEq

structure BulkProcessor where
  buffer : List BulkRequest
  closed : Bool
  config : BulkServiceConfig
deriving DecidableEq

/-- The elastic client collaborator, as outcome oracles for each request the
hook can issue. -/
structure Client where
  /-- outcome of `client.IndexExists(index).Do(ctx)` -/
  indexExistsResult : String → Except GoErr Bool
  /-- outcome of `client.Index().Index(i).Type(t).BodyJson(doc).Do(ctx)` -/
  indexResult : String → String → Message → Option GoErr
  /-- error returned by `client.BulkProcessor()...Do(ctx)` (`none` on success) -/
  bulkStartErr : Option GoErr
  /-- error returned by `processor.Flush()` for a given pending buffer -/
  bulkFlushErr : List BulkRequest → Option GoErr
  /-- error returned by `processor.Close()` -/
  bulkCloseErr : Option GoErr

/-- The hook's cancel function.  `New` installs the plain context cancel
(`base`); each `EnableBulkFlush` wraps the previous cancel with
flush-and-close of the processor (`bulkWrapped`). -/
inductive CancelFn
  | base
  | bulkWrapped (inner : CancelFn)
deriving DecidableEq

/-- Which function the `flushFunc` field currently holds. -/
inductive FlushMode
  | sync
  | async
  | bulk
deriving DecidableEq

/-- `type Formatter func(*logrus.Entry) Message`; the extra `Entry` component
models any in-place mutation of the input entry. -/
abbrev Formatter := Entry → Entry × Message

/-- The `Hook` struct.  `ctxCancelled` models the state of `h.ctx`;
`cancelFn` models the `h.cancel` closure; `processor` models the bulk
processor captured by the closures installed by `EnableBulkFlush`
(`none` before bulk mode is enabled, and also when starting the processor
failed, in which case the Go closures captured a nil processor). -/
structure Hook where
  client : Client
  index : String
  docType : String
  levels : List Nat
  ctxCancelled : Bool
  cancelFn : CancelFn
  formatter : Formatter
  flushMode : FlushMode
  errorLogger : Bool
  processor : Option BulkProcessor

def indexNotExistsErr : GoErr := "index not exists"

/-- the Go runtime error raised by a method call that dereferences a nil
`*elastic.BulkProcessor` -/
def nilDerefMsg : String :=
  "runtime error: invalid memory address or nil pointer dereference"

def ctxCanceledErr : GoErr := "context canceled"

def defaultDocType : String := "doc"

/-- `New(client, index)`: checks index existence; on check error or absence
returns the error (after cancelling the fresh context); otherwise returns the
hook with its documented defaults. -/
def New (client : Client) (index : String) : Except GoErr Hook :=
  match client.indexExistsResult index with
  | Except.error e => Except.error e
  | Except.ok false => Except.error indexNotExistsErr
  | Except.ok true =>
      Except.ok
        { client := client
          index := index
          docType := defaultDocType
          levels := logrusAllLevels
          ctxCancelled := false
          cancelFn := CancelFn.base
          formatter := defaultFormatter
          flushMode := FlushMode.sync
          errorLogger := false
          processor := none }

/-- `Hook.SetLevel`: keeps every level of `logrus.AllLevels` that is at most
the given level (numerically smaller or equal, i.e. at least as severe). -/
def Hook.SetLevel (h : Hook) (level : Nat) : Hook :=
  { h with levels := logrusAllLevels.filter (fun l => decide (l ≤ level)) }

def Hook.SetFormatter (h : Hook) (formatter : Formatter) : Hook :=
  { h with formatter := formatter }

def Hook.SetDocumentType (h : Hook) (t : String) : Hook :=
  { h with docType := t }

def Hook.Levels (h : Hook) : List Nat := h.levels

def apos : Char := Char.ofNat 39

/-- the string literal logged by `asyncFlush` -/
def couldntSendMsg : String :=
  String.mk ['c', 'o', 'u', 'l', 'd', 'n', apos, 't', ' ', 's', 'e', 'n', 'd',
    ' ', 'l', 'o', 'g', ' ', 't', 'o', ' ', 'e', 'l', 'a', 's', 't', 'i', 'c']

/-- the string literal logged by the wrapped cancel when `Flush` errors -/
def couldntFlushMsg : String :=
  String.mk ['c', 'o', 'u', 'l', 'd', 'n', apos, 't', ' ', 'f', 'l', 'u', 's', 'h']

/-- the string literal logged by the wrapped cancel when `Close` errors -/
def couldntCloseMsg : String :=
  String.mk ['c', 'o', 'u', 'l', 'd', 'n', apos, 't', ' ', 'c', 'l', 'o', 's', 'e']

/-- `syncFlush`: one blocking index request under the hook's context; with a
cancelled context the client returns the context error without performing the
request. -/
def syncFlush (entry : Entry) (hook : Hook) (tr : Trace) : Option GoErr × Trace :=
  if hook.ctxCancelled then (some ctxCanceledErr, tr)
  else
    (hook.client.indexResult hook.index hook.docType (hook.formatter entry).2,
     tr ++ [Event.singleIndexed hook.index hook.docType (hook.formatter entry).2])

/-- `asyncFlush`: spawns a goroutine running `syncFlush` and returns nil
immediately.  The goroutine body is modeled as run to completion.  Note that
the source invokes the error logger whenever it is non-nil, with whatever
error `syncFlush` returned — it does not test the error for nil. -/
def asyncFlush (entry : Entry) (hook : Hook) (tr : Trace) : Option GoErr × Trace :=
  let res := syncFlush entry hook tr
  (none,
   if hook.errorLogger then res.2 ++ [Event.errLogged couldntSendMsg res.1] else res.2)

/-- The closure `EnableBulkFlush` installs as `flushFunc`: build a bulk index
request from the hook's index, document type and formatter output, and add it
to the captured processor, returning nil.  When starting the processor
failed, the closure captured a nil `*elastic.BulkProcessor`, and
`processor.Add` dereferences it: the Go runtime panics.  The model records
the panic on the trace; the other result components are never observed, as
execution aborts. -/
def bulkFlushFunc (entry : Entry) (hook : Hook) (tr : Trace) :
    Option GoErr × Hook × Trace :=
  match hook.processor with
  | none => (none, hook, tr ++ [Event.panicked nilDerefMsg])
  | some p =>
      (none,
       { hook with processor := some { p with buffer := p.buffer ++
           [{ index := hook.index, docType := hook.docType,
              doc := (hook.formatter entry).2 }] } },
       tr ++ [Event.bulkAdded
         { index := hook.index, docType := hook.docType,
           doc := (hook.formatter entry).2 }])

/-- `BulkOptions` (options.go): `Backoff`, `BulkBefore` and `BulkAfter` are
interface/function values modeled by their presence. -/
structure BulkOptions where
  Workers : Int
  Stats : Bool
  BulkActions : Int
  BulkSize : Int
  FlushInterval : Int
  Backoff : Bool
  BulkBefore : Bool
  BulkAfter : Bool
  RetryItemStatusCodes : Option (List Int)
deriving DecidableEq

def bulkServiceName : String := "elasticlogrus"

/-- The builder chain of `EnableBulkFlush`: each option is forwarded to the
external bulk processor service exactly under the source's guard. -/
def buildBulkService (options : BulkOptions) : BulkServiceConfig :=
  { name := bulkServiceName
    workers := if options.Workers > 0 then some options.Workers else none
    bulkActions := if options.BulkActions ≠ 0 then some options.BulkActions else none
    bulkSize := if options.BulkSize ≠ 0 then some options.BulkSize else none
    flushInterval := if options.FlushInterval ≠ 0 then some options.FlushInterval else none
    backoffSet := options.Backoff
    retryItemStatusCodes := options.RetryItemStatusCodes }

/-- `processor.Flush()`: on a live processor, asks the workers to commit the
pending buffer (no commit event when the buffer is empty) and empties it;
returns the collaborator's outcome.  A closed processor has no live workers,
so nothing is transmitted. -/
def procFlush (client : Client) (p : BulkProcessor) (tr : Trace) :
    Option GoErr × BulkProcessor × Trace :=
  if p.closed then (none, p, tr)
  else
    (client.bulkFlushErr p.buffer,
     { p with buffer := [] },
     tr ++ [Event.procFlushed] ++
       (if p.buffer.isEmpty then [] else [Event.bulkCommitted p.buffer]))

/-- `processor.Close()`: idempotent; on a live processor commits any
outstanding requests and stops the flusher and workers. -/
def procClose (client : Client) (p : BulkProcessor) (tr : Trace) :
    Option GoErr × BulkProcessor × Trace :=
  if p.closed then (none, p, tr)
  else
    (client.bulkCloseErr,
     { p with buffer := [], closed := true },
     tr ++ (if p.buffer.isEmpty then [] else [Event.bulkCommitted p.buffer]) ++
       [Event.procClosed])

/-- Run the hook's cancel closure.  `base` cancels the shared context; the
wrapper installed by `EnableBulkFlush` first runs the previous cancel, then
flushes and closes the captured processor, reporting a non-nil error from
either call through the error logger when one is set.  When the wrapper's
captured processor is nil (starting it failed), `processor.Flush()`
dereferences the nil pointer and the Go runtime panics right after the inner
cancel; the model records the panic on the trace and nothing further runs. -/
def runCancel : CancelFn → Hook → Trace → Hook × Trace
  | CancelFn.base, h, tr =>
      ({ h with ctxCancelled := true }, tr ++ [Event.ctxCancelled])
  | CancelFn.bulkWrapped inner, h, tr =>
      let res := runCancel inner h tr
      match res.1.processor with
      | none => (res.1, res.2 ++ [Event.panicked nilDerefMsg])
      | some p =>
          let f := procFlush res.1.client p res.2
          let tr2 := if f.1.isSome && res.1.errorLogger
            then f.2.2 ++ [Event.errLogged couldntFlushMsg f.1] else f.2.2
          let c := procClose res.1.client f.2.1 tr2
          let tr3 := if c.1.isSome && res.1.errorLogger
            then c.2.2 ++ [Event.errLogged couldntCloseMsg c.1] else c.2.2
          ({ res.1 with processor := some c.2.1 }, tr3)

/-- `Hook.EnableBulkFlush`: builds and starts the external bulk processor,
wraps the cancel function, installs the bulk flush function, and returns the
start error — the two installations happen regardless of that error. -/
def Hook.EnableBulkFlush (h : Hook) (options : BulkOptions) : Option GoErr × Hook :=
  let err := h.client.bulkStartErr
  (err,
   { h with
       cancelFn := CancelFn.bulkWrapped h.cancelFn
       flushMode := FlushMode.bulk
       processor :=
         if err = none
         then some { buffer := [], closed := false, config := buildBulkService options }
         else none })

def Hook.EnableAsyncFlush (h : Hook) : Hook := { h with flushMode := FlushMode.async }

def Hook.EnableSyncFlush (h : Hook) : Hook := { h with flushMode := FlushMode.sync }

/-- dispatch on the current `flushFunc` -/
def runFlush : FlushMode → Entry → Hook → Trace → Option GoErr × Hook × Trace
  | FlushMode.sync, e, h, tr =>
      let r := syncFlush e h tr
      (r.1, h, r.2)
  | FlushMode.async, e, h, tr =>
      let r := asyncFlush e h tr
      (r.1, h, r.2)
  | FlushMode.bulk, e, h, tr => bulkFlushFunc e h tr

/-- `Hook.Fire`: calls `h.flushFunc(entry, h)` — nothing else. -/
def Hook.Fire (h : Hook) (entry : Entry) (tr : Trace) : Option GoErr × Hook × Trace :=
  runFlush h.flushMode entry h tr

/-- `Hook.Close`: calls `h.cancel()`; returns no error value. -/
def Hook.Close (h : Hook) (tr : Trace) : Hook × Trace :=
  runCancel h.cancelFn h tr

/-- All bulk requests transmitted in a trace, in order. -/
def committedDocs : Trace → List BulkRequest
  | [] => []
  | Event.bulkCommitted reqs :: rest => reqs ++ committedDocs rest
  | _ :: rest => committedDocs rest

/-! ## Helper lemmas -/

theorem lookup_setKey_self (d : List (String × GoValue)) (k : String) (v : GoValue) :
    lookup (setKey d k v) k = some v := by
  induction d with
  | nil => simp [setKey, lookup]
  | cons hd tl ih =>
      obtain ⟨k1, v1⟩ := hd
      by_cases hk : k1 = k
      · simp [setKey, hk, lookup]
      · simp [setKey, hk, lookup, ih]

theorem committedDocs_append (a b : Trace) :
    committedDocs (a ++ b) = committedDocs a ++ committedDocs b := by
  induction a with
  | nil => rfl
  | cons hd tl ih => cases hd <;> simp [committedDocs, ih]

/-- A second `Close` — in sync/async mode, or after an `EnableBulkFlush`
that succeeded (live captured processor) — appends exactly one
context-cancellation event to the trace: the processor is already closed, so
nothing further is flushed, transmitted or reported. -/
theorem close_twice_trace (h : Hook) (tr : Trace)
    (hc : h.cancelFn = CancelFn.base ∨
      (h.cancelFn = CancelFn.bulkWrapped CancelFn.base ∧ ∃ p, h.processor = some p)) :
    (Hook.Close (Hook.Close h tr).1 (Hook.Close h tr).2).2 =
      (Hook.Close h tr).2 ++ [Event.ctxCancelled] := by
  rcases hc with hc | ⟨hc, p, hp⟩
  · simp [Hook.Close, hc, runCancel]
  · cases hcl : p.closed with
    | false => simp [Hook.Close, hc, runCancel, hp, procFlush, procClose, hcl]
    | true => simp [Hook.Close, hc, runCancel, hp, procFlush, procClose, hcl]

/-- In sync/async mode, or after an `EnableBulkFlush` that succeeded, `Close`
adds no panic event to the trace. -/
theorem close_no_panic (h : Hook) (tr : Trace) (m : String)
    (hc : h.cancelFn = CancelFn.base ∨
      (h.cancelFn = CancelFn.bulkWrapped CancelFn.base ∧ ∃ p, h.processor = some p))
    (hm : Event.panicked m ∉ tr) :
    Event.panicked m ∉ (Hook.Close h tr).2 := by
  rcases hc with hc | ⟨hc, p, hp⟩
  · simp [Hook.Close, hc, runCancel, List.mem_append, hm]
  · cases hcl : p.closed with
    | false =>
        simp only [Hook.Close, hc, runCancel, hp, procFlush, procClose, hcl]
        split_ifs <;> simp [List.mem_append, hm]
    | true =>
        simp only [Hook.Close, hc, runCancel, hp, procFlush, procClose, hcl]
        split_ifs <;> simp [List.mem_append, hm]

/-! ## Concrete fixtures -/

def ts0 : String := "2020-01-02T03:04:05.000000006Z"

def idx0 : String := "logs"

def m0 : String := "hello"

def boomMsg : String := "boom"

def flushBoomMsg : GoErr := "flush failed"

def startBoomMsg : GoErr := "bulk start failed"

/-- a client for which every request succeeds -/
def cOK : Client :=
  { indexExistsResult := fun _ => Except.ok true
    indexResult := fun _ _ _ => none
    bulkStartErr := none
    bulkFlushErr := fun _ => none
    bulkCloseErr := none }

/-- a client whose bulk flush fails -/
def cFlushErr : Client := { cOK with bulkFlushErr := fun _ => some flushBoomMsg }

/-- a client for which starting the bulk processor fails -/
def cStartFail : Client := { cOK with bulkStartErr := some startBoomMsg }

/-- a debug-level entry with empty field map -/
def e0 : Entry :=
  { time := { rfc3339NanoUTC := ts0 }, level := 5, message := m0, data := [] }

/-- an error-level entry carrying an error value under the reserved key -/
def eErr : Entry :=
  { time := { rfc3339NanoUTC := ts0 }, level := 2, message := m0,
    data := [(logrusErrorKey, GoValue.verr boomMsg)] }

/-- the hook `New cOK idx0` constructs -/
def hook0 : Hook :=
  { client := cOK
    index := idx0
    docType := defaultDocType
    levels := logrusAllLevels
    ctxCancelled := false
    cancelFn := CancelFn.base
    formatter := defaultFormatter
    flushMode := FlushMode.sync
    errorLogger := false
    processor := none }

/-- `hook0` with its threshold set to the error level -/
def hookErrLevel : Hook := Hook.SetLevel hook0 2

/-- an async-mode hook with an error logger injected -/
def hookAsyncLogger : Hook :=
  { hook0 with flushMode := FlushMode.async, errorLogger := true }

def cfg0 : BulkServiceConfig :=
  { name := bulkServiceName, workers := none, bulkActions := none, bulkSize := none,
    flushInterval := none, backoffSet := false, retryItemStatusCodes := none }

/-- the bulk request `Fire` builds from `e0` on `hook0`'s configuration -/
def req0 : BulkRequest :=
  { index := idx0, docType := defaultDocType, doc := (defaultFormatter e0).2 }

/-- a live processor holding one pending request -/
def procBulk0 : BulkProcessor := { buffer := [req0], closed := false, config := cfg0 }

/-- `procBulk0` after one more enqueue of the same request -/
def procBulk1 : BulkProcessor := { buffer := [req0, req0], closed := false, config := cfg0 }

/-- a bulk-mode hook, with an error logger and a client whose flush fails -/
def hookBulk : Hook :=
  { hook0 with client := cFlushErr
               flushMode := FlushMode.bulk
               cancelFn := CancelFn.bulkWrapped CancelFn.base
               errorLogger := true
               processor := some procBulk0 }

/-- `hook0` over the client whose bulk-processor start fails -/
def hookStartFail : Hook := { hook0 with client := cStartFail }

/-- the options the repository test suite passes to `EnableBulkFlush` -/
def opts0 : BulkOptions :=
  { Workers := 2, Stats := false, BulkActions := 0, BulkSize := 0,
    FlushInterval := 1000000000, Backoff := false, BulkBefore := false,
    BulkAfter := false, RetryItemStatusCodes := none }

/-- the hook left behind by a failed `EnableBulkFlush` call: bulk flush
function installed, cancel wrapped, but the captured processor is nil -/
def hookFailedBulk : Hook := (Hook.EnableBulkFlush hookStartFail opts0).2

/-! ## Claim theorems -/

/-- Claim C1, counterexample: on a sync-mode hook whose threshold was set to
the error level, a debug-level entry — strictly below the threshold and
absent from `Levels` — is nevertheless formatted and delivered by `Fire`: the
single-document index request reaches the client.  `Fire` performs no level
filtering, refuting "the record is filtered out inside fire before formatting
and delivery". -/
theorem fire_below_threshold_delivers_cex :
    e0.level ∉ Hook.Levels hookErrLevel ∧
    (Hook.Fire hookErrLevel e0 []).2.2 =
      [Event.singleIndexed idx0 defaultDocType (defaultFormatter e0).2] :=
  ⟨by decide, rfl⟩

/-- Claim C1 (amended): `fire` performs no level filtering of its own — even
a record whose severity is below the configured threshold (not a member of
the exposed level set) is formatted and delegated to the active delivery
strategy, and the strategy's result is returned; level filtering is instead
performed by the logging framework through the `levels()` accessor. -/
theorem fire_no_level_filter (h : Hook) (e : Entry) (tr : Trace)
    (hm : h.flushMode = FlushMode.sync) (hctx : h.ctxCancelled = false)
    (_hlv : e.level ∉ Hook.Levels h) :
    (Hook.Fire h e tr).1 =
      h.client.indexResult h.index h.docType (h.formatter e).2 ∧
    (Hook.Fire h e tr).2.2 =
      tr ++ [Event.singleIndexed h.index h.docType (h.formatter e).2] := by
  simp [Hook.Fire, hm, runFlush, syncFlush, hctx]

theorem fire_no_level_filter_witness :
    (Hook.Fire hookErrLevel e0 []).1 =
      hookErrLevel.client.indexResult hookErrLevel.index hookErrLevel.docType
        (hookErrLevel.formatter e0).2 ∧
    (Hook.Fire hookErrLevel e0 []).2.2 =
      [] ++ [Event.singleIndexed hookErrLevel.index hookErrLevel.docType
        (hookErrLevel.formatter e0).2] :=
  fire_no_level_filter hookErrLevel e0 [] rfl rfl (by decide)

/-- Claim C2, code bug: in async mode with an error logger injected and a
client for which the index request succeeds, `Fire` returns nil to its caller
(as claimed), but the spawned delivery invokes the error logger anyway, with
a nil error — the source tests only `hook.errorLogger != nil` and never
`err != nil`, so the callback is not invoked "if and only if the delivery
fails": it also fires on success. -/
theorem asyncFlush_reports_on_success :
    (Hook.Fire hookAsyncLogger e0 []).1 = none ∧
    (Hook.Fire hookAsyncLogger e0 []).2.2 =
      [Event.singleIndexed idx0 defaultDocType (defaultFormatter e0).2,
       Event.errLogged couldntSendMsg none] :=
  ⟨rfl, rfl⟩

/-- Claim C3: `New` fails with the check's error when the existence check
fails, fails with an explicit error when the collection is absent, and
otherwise — exactly when the check succeeds affirmatively — returns the Ready
hook with its documented defaults. -/
theorem New_spec (c : Client) (i : String) :
    (match c.indexExistsResult i with
     | Except.error e => New c i = Except.error e
     | Except.ok false => New c i = Except.error indexNotExistsErr
     | Except.ok true =>
         New c i = Except.ok
           { client := c
             index := i
             docType := defaultDocType
             levels := logrusAllLevels
             ctxCancelled := false
             cancelFn := CancelFn.base
             formatter := defaultFormatter
             flushMode := FlushMode.sync
             errorLogger := false
             processor := none } : Prop) := by
  rcases hx : c.indexExistsResult i with e | b
  · simp [New, hx]
  · cases b <;> simp [New, hx]

theorem New_spec_witness : New cOK idx0 = Except.ok hook0 :=
  New_spec cOK idx0

/-- Claim C4: the default formatter produces exactly the four fields
`@timestamp` (the entry time rendered as an RFC3339Nano UTC string),
`message`, `level` (the level name) and `data` (the field mapping); and an
error-typed value stored under the reserved error key appears in the
produced document's data as its string representation. -/
theorem defaultFormatter_spec (e : Entry) :
    (defaultFormatter e).2 =
      [(timestampKey, MValue.mstr e.time.rfc3339NanoUTC),
       (messageKey, MValue.mstr e.message),
       (levelKey, MValue.mstr (levelString e.level)),
       (dataKey, MValue.mdata (normalizeErrorField e.data))] ∧
    ∀ m, lookup e.data logrusErrorKey = some (GoValue.verr m) →
      lookup (normalizeErrorField e.data) logrusErrorKey = some (GoValue.vstr m) := by
  refine ⟨rfl, ?_⟩
  intro m hm
  unfold normalizeErrorField
  rw [hm]
  exact lookup_setKey_self e.data logrusErrorKey (GoValue.vstr m)

theorem defaultFormatter_spec_witness :
    lookup (normalizeErrorField eErr.data) logrusErrorKey =
      some (GoValue.vstr boomMsg) :=
  (defaultFormatter_spec eErr).2 boomMsg rfl

/-- Claim C5: on a bulk-enabled hook, `Close` first cancels the shared
context, then performs the one final flush of the pending buffer, then closes
the processor (releasing its workers) — in that order on the trace; a non-nil
error from the flush or from the close is reported through the error logger
exactly when one is set; and `Close` returns no error value at all (its
result type carries none). -/
theorem close_bulk_spec (h : Hook) (tr : Trace) (p : BulkProcessor)
    (hc : h.cancelFn = CancelFn.bulkWrapped CancelFn.base)
    (hp : h.processor = some p) (hcl : p.closed = false) :
    (Hook.Close h tr).2 =
      tr ++ [Event.ctxCancelled, Event.procFlushed] ++
        (if p.buffer.isEmpty then [] else [Event.bulkCommitted p.buffer]) ++
        (if (h.client.bulkFlushErr p.buffer).isSome && h.errorLogger
         then [Event.errLogged couldntFlushMsg (h.client.bulkFlushErr p.buffer)]
         else []) ++
        [Event.procClosed] ++
        (if h.client.bulkCloseErr.isSome && h.errorLogger
         then [Event.errLogged couldntCloseMsg h.client.bulkCloseErr]
         else []) ∧
    (Hook.Close h tr).1.ctxCancelled = true ∧
    (Hook.Close h tr).1.processor =
      some { p with buffer := [], closed := true } := by
  refine ⟨?_, ?_, ?_⟩ <;>
    simp [Hook.Close, hc, runCancel, hp, procFlush, procClose, hcl]
  split_ifs <;> simp [List.append_assoc]

theorem close_bulk_spec_witness :
    (Hook.Close hookBulk []).2 =
      [Event.ctxCancelled, Event.procFlushed, Event.bulkCommitted [req0],
       Event.errLogged couldntFlushMsg (some flushBoomMsg), Event.procClosed] ∧
    (Hook.Close hookBulk []).1.ctxCancelled = true ∧
    (Hook.Close hookBulk []).1.processor =
      some { buffer := [], closed := true, config := cfg0 } :=
  close_bulk_spec hookBulk [] procBulk0 rfl rfl rfl

/-- Claim C6: after `SetLevel L`, the exposed level set `Levels` holds a
level exactly when it is a logrus level at least as severe as `L`
(numerically at most `L`): `L` itself, everything more severe, and no
less-severe level. -/
theorem setLevel_levels (h : Hook) (L : Nat) :
    ∀ l, l ∈ Hook.Levels (Hook.SetLevel h L) ↔ l ∈ logrusAllLevels ∧ l ≤ L := by
  intro l
  simp [Hook.Levels, Hook.SetLevel, List.mem_filter]

/-- Claim C7: the default formatter mutates the input record in place — when
the field map holds an error-typed value under the reserved key, the returned
(caller-visible) entry has that field overwritten with the error's string
representation; an entry without such a value is returned unchanged. -/
theorem defaultFormatter_mutates (e : Entry) :
    (∀ m, lookup e.data logrusErrorKey = some (GoValue.verr m) →
      (defaultFormatter e).1 =
        { e with data := setKey e.data logrusErrorKey (GoValue.vstr m) }) ∧
    ((∀ m, lookup e.data logrusErrorKey ≠ some (GoValue.verr m)) →
      (defaultFormatter e).1 = e) := by
  constructor
  · intro m hm
    simp [defaultFormatter, normalizeErrorField, hm]
  · intro hno
    have hdata : normalizeErrorField e.data = e.data := by
      unfold normalizeErrorField
      rcases hx : lookup e.data logrusErrorKey with _ | v
      · rfl
      · cases v with
        | verr m => exact absurd hx (hno m)
        | vnull => rfl
        | vstr s => rfl
        | vint n => rfl
    simp [defaultFormatter, hdata]

theorem defaultFormatter_mutates_witness :
    (defaultFormatter eErr).1 =
      { eErr with data := setKey eErr.data logrusErrorKey (GoValue.vstr boomMsg) } :=
  (defaultFormatter_mutates eErr).1 boomMsg rfl

/-- Claim C8: in bulk mode, `Fire` (the installed bulk flush function)
appends exactly one bulk index request — for the hook's configured collection
and document type, carrying the formatter's document — to the processor
buffer, and returns nil, for every entry. -/
theorem bulk_enqueue_spec (h : Hook) (e : Entry) (tr : Trace) (p : BulkProcessor)
    (hm : h.flushMode = FlushMode.bulk) (hp : h.processor = some p) :
    (Hook.Fire h e tr).1 = none ∧
    (Hook.Fire h e tr).2.1 =
      { h with processor := some { p with buffer := p.buffer ++
          [{ index := h.index, docType := h.docType, doc := (h.formatter e).2 }] } } ∧
    (Hook.Fire h e tr).2.2 =
      tr ++ [Event.bulkAdded
        { index := h.index, docType := h.docType, doc := (h.formatter e).2 }] := by
  refine ⟨?_, ?_, ?_⟩ <;> simp [Hook.Fire, hm, runFlush, bulkFlushFunc, hp]

theorem bulk_enqueue_spec_witness :
    (Hook.Fire hookBulk e0 []).1 = none ∧
    (Hook.Fire hookBulk e0 []).2.1 =
      { hookBulk with processor := some procBulk1 } ∧
    (Hook.Fire hookBulk e0 []).2.2 = [Event.bulkAdded req0] :=
  bulk_enqueue_spec hookBulk e0 [] procBulk0 rfl rfl

/-- Claim C9, counterexample: on the hook a failed `EnableBulkFlush` leaves
behind — a state reachable through the public API, and "after
EnableBulkFlush" as the claim says — the very first of the two `Close` calls
runs the wrapped cancel, whose `processor.Flush()` dereferences the nil
captured processor: the Go runtime panics.  This refutes "calling close
twice ... (in any delivery mode, including after EnableBulkFlush) does not
panic or crash". -/
theorem close_twice_panics_cex :
    hookFailedBulk.cancelFn = CancelFn.bulkWrapped CancelFn.base ∧
    hookFailedBulk.processor = none ∧
    (Hook.Close hookFailedBulk []).2 =
      [Event.ctxCancelled, Event.panicked nilDerefMsg] :=
  ⟨rfl, rfl, rfl⟩

/-- Claim C9 (amended): calling `Close` twice on a hook in sync or async
mode, or on a hook whose `EnableBulkFlush` call succeeded (a live processor
was captured), does not panic — no panic event is added to the trace by
either call — and does not cause already-sent buffered documents to be
flushed a second time: the first close drained the buffer and closed the
processor, so the second close only re-cancels the context and transmits
nothing. -/
theorem close_idempotent (h : Hook) (tr : Trace)
    (hc : h.cancelFn = CancelFn.base ∨
      (h.cancelFn = CancelFn.bulkWrapped CancelFn.base ∧ ∃ p, h.processor = some p)) :
    committedDocs (Hook.Close (Hook.Close h tr).1 (Hook.Close h tr).2).2 =
      committedDocs (Hook.Close h tr).2 ∧
    (∀ m, Event.panicked m ∉ tr →
      Event.panicked m ∉ (Hook.Close (Hook.Close h tr).1 (Hook.Close h tr).2).2) := by
  constructor
  · rw [close_twice_trace h tr hc, committedDocs_append]
    simp [committedDocs]
  · intro m hm
    rw [close_twice_trace h tr hc]
    simp only [List.mem_append, List.mem_singleton, not_or]
    refine ⟨close_no_panic h tr m hc hm, by simp⟩

theorem close_idempotent_witness :
    committedDocs (Hook.Close (Hook.Close hookBulk []).1 (Hook.Close hookBulk []).2).2 =
      committedDocs (Hook.Close hookBulk []).2 ∧
    Event.panicked nilDerefMsg ∉
      (Hook.Close (Hook.Close hookBulk []).1 (Hook.Close hookBulk []).2).2 :=
  ⟨(close_idempotent hookBulk [] (Or.inr ⟨rfl, procBulk0, rfl⟩)).1,
   (close_idempotent hookBulk [] (Or.inr ⟨rfl, procBulk0, rfl⟩)).2 nilDerefMsg
     (by simp)⟩

/-- Claim C10: `EnableBulkFlush` is not atomic on error — even when starting
the bulk processor fails, it has already replaced the flush function with the
bulk variant and wrapped the cancel function with the flush-and-close logic
by the time it returns the error. -/
theorem enableBulkFlush_not_atomic (h : Hook) (options : BulkOptions) (e : GoErr)
    (he : h.client.bulkStartErr = some e) :
    (Hook.EnableBulkFlush h options).1 = some e ∧
    (Hook.EnableBulkFlush h options).2.flushMode = FlushMode.bulk ∧
    (Hook.EnableBulkFlush h options).2.cancelFn = CancelFn.bulkWrapped h.cancelFn := by
  refine ⟨?_, ?_, ?_⟩ <;> simp [Hook.EnableBulkFlush, he]

theorem enableBulkFlush_not_atomic_witness :
    (Hook.EnableBulkFlush hookStartFail opts0).1 = some startBoomMsg ∧
    (Hook.EnableBulkFlush hookStartFail opts0).2.flushMode = FlushMode.bulk ∧
    (Hook.EnableBulkFlush hookStartFail opts0).2.cancelFn =
      CancelFn.bulkWrapped CancelFn.base :=
  enableBulkFlush_not_atomic hookStartFail opts0 startBoomMsg rfl

end Elasticlogrus
